import Mathlib

/-
Verification of the IPsec security-mode rollout and verification engine of
the origin e2e networking suite. The definitions below are a shallow
embedding of the Go source (the IPsec test file: configureIPsecMode,
getIPsecMode, ensureIPsecEnabled, ensureIPsecMachineConfigRolloutComplete,
ensureIPsecDisabled, isIPsecDaemonSetRunning, getIPsecDaemonSet,
pingAndCheckNodeTraffic, checkForESPOnlyTraffic, checkForGeneveOnlyTraffic,
checkTraffic, waitForIPsecConfigToComplete, and the BeforeAll/AfterEach
scenario hooks). Kubernetes client calls are replaced by explicit
result-oracle parameters: a probe that the Go code invokes at each poll
becomes a function from the poll index to the (bool, error) pair it returns.
-/

namespace OriginIPsec

/-- Errors crossing the embedded interfaces. The connReset constructor stands
for the designated transient connection-reset class, notFound for a Kubernetes
NotFound status error, conflict for an optimistic-concurrency conflict on
update, deadlineExceeded for the context error produced when a poll deadline
expires, and msg for any other error. srcCaptureWrap and dstCaptureWrap model
the fmt.Errorf wrapping applied by the two tcpdump tasks of
pingAndCheckNodeTraffic. -/
inductive Err where
  | connReset
  | notFound
  | conflict
  | deadlineExceeded
  | msg (s : String)
  | srcCaptureWrap (e : Err)
  | dstCaptureWrap (e : Err)
deriving DecidableEq

/-- Modelled from the spec: isConnResetErr (a helper of this repository that
is not under src/) recognises the designated class of connection reset style
errors that polling swallows. -/
def isConnResetErr : Err → Bool
  | .connReset => true
  | _ => false

/-- Modelled from the spec: apierrors.IsNotFound of the Kubernetes error
package (not under src/) recognises a NotFound status error. -/
def isNotFoundErr : Err → Bool
  | .notFound => true
  | _ => false

/-- The mode string of the IPsecConfig record
(network.Spec.DefaultNetwork.OVNKubernetesConfig.IPsecConfig.Mode). -/
structure IPsecConfig where
  mode : String
deriving DecidableEq

/-- IPsecMode constant of the openshift operator API: Disabled. -/
def IPsecModeDisabled : String := "Disabled"

/-- IPsecMode constant of the openshift operator API: External. -/
def IPsecModeExternal : String := "External"

/-- IPsecMode constant of the openshift operator API: Full. -/
def IPsecModeFull : String := "Full"

/-- The empty mode string. -/
def emptyMode : String := ""

/-- The name of the north-south certificate machine config
(nsCertMachineConfigName in the source). -/
def nsCertMachineConfigName : String := "99-worker-north-south-ipsec-config"

/-- The fixed rollout wait bound, in minutes (ipsecRolloutWaitDuration,
20 minutes in the source). -/
def ipsecRolloutWaitDuration : Nat := 20

/-- The fixed rollout poll interval, in minutes (ipsecRolloutWaitInterval,
1 minute in the source). -/
def ipsecRolloutWaitInterval : Nat := 1

/-- The cluster-side state touched by the engine: the IPsec config sub-record
of the cluster Network operator object (None when the sub-record is missing),
a count of the update (write) calls that succeeded against it, and the
presence flags of the resources the scenario provisions and removes
(per-node IPsec policies, the nmstate handler, the certificate machine
config). -/
structure ClusterState where
  ipsecConfig : Option IPsecConfig
  writeCount : Nat := 0
  leftNodePolicy : Bool := false
  rightNodePolicy : Bool := false
  nmstateHandlerDeployed : Bool := false
  certMachineConfig : Bool := false
deriving DecidableEq

/-- Networks().Update: fails with a conflict error when the injected conflict
flag is set (optimistic concurrency), otherwise stores the new sub-record and
counts one underlying write. -/
def updateNetwork (conflict : Bool) (s : ClusterState) (cfg : IPsecConfig) :
    ClusterState × Option Err :=
  if conflict then (s, some .conflict)
  else ({ s with ipsecConfig := some cfg, writeCount := s.writeCount + 1 }, none)

/-- One body run of the retry.RetryOnConflict closure of configureIPsecMode:
read the network object (readErr is the error of that Get), create the
IPsecConfig sub-record with the desired mode when it is missing, mutate its
mode when different, return without updating when already equal, and
otherwise write back through updateNetwork. -/
def configureIPsecModeAttempt (ipsecMode : String) (readErr : Option Err)
    (conflict : Bool) (s : ClusterState) : ClusterState × Option Err :=
  match readErr with
  | some e => (s, some e)
  | none =>
    match s.ipsecConfig with
    | none => updateNetwork conflict s { mode := ipsecMode }
    | some cfg =>
      if cfg.mode ≠ ipsecMode then updateNetwork conflict s { mode := ipsecMode }
      else (s, none)

/-- Modelled from the spec: retry.RetryOnConflict of client-go (not under
src/) re-runs the whole read-compare-write closure while it fails with a
conflict error, up to a bounded budget of attempts (fuel); a nil or
non-conflict result is returned as is, and exhausting the budget returns the
last conflict error. The oracles give the Get error and the injected update
conflict of the i-th attempt. -/
def configureIPsecModeAux (ipsecMode : String) (conflicts : Nat → Bool)
    (readErrs : Nat → Option Err) : Nat → Nat → ClusterState → ClusterState × Option Err
  | 0, _, s => (s, some .conflict)
  | fuel + 1, i, s =>
    match configureIPsecModeAttempt ipsecMode (readErrs i) (conflicts i) s with
    | (s1, none) => (s1, none)
    | (s1, some .conflict) => configureIPsecModeAux ipsecMode conflicts readErrs fuel (i + 1) s1
    | (s1, some e) => (s1, some e)

/-- configureIPsecMode of the source: RetryOnConflict(DefaultRetry, the
read-compare-write closure), with steps the retry budget. -/
def configureIPsecMode (ipsecMode : String) (conflicts : Nat → Bool)
    (readErrs : Nat → Option Err) (steps : Nat) (s : ClusterState) :
    ClusterState × Option Err :=
  configureIPsecModeAux ipsecMode conflicts readErrs steps 0 s

/-- Modelled from the spec: the bounded retry budget of client-go
retry.DefaultRetry (5 attempts). -/
def defaultRetrySteps : Nat := 5

/-- getIPsecMode of the source: on a Get error returns (Disabled, the error);
with no sub-record returns Disabled; with an empty mode string returns Full
(backward compatibility); otherwise returns the stored mode unchanged. -/
def getIPsecMode (readErr : Option Err) (ipsecConfig : Option IPsecConfig) :
    String × Option Err :=
  match readErr with
  | some e => (IPsecModeDisabled, some e)
  | none =>
    match ipsecConfig with
    | none => (IPsecModeDisabled, none)
    | some cfg =>
      if cfg.mode ≠ emptyMode then (cfg.mode, none) else (IPsecModeFull, none)

/-- The status counters of the ovn-ipsec-host daemonset that
isIPsecDaemonSetRunning compares. -/
structure DaemonSetStatus where
  desiredNumberScheduled : Int
  numberReady : Int
deriving DecidableEq

/-- The raw result of the typed client Get for the daemonset: the returned
object (the typed client may return an object together with an error; it
returns a zero-valued non-nil object on transport errors) and the error. -/
abbrev DSGetResult := Option DaemonSetStatus × Option Err

/-- getIPsecDaemonSet of the source: maps a NotFound lookup error to
(nil, nil) and passes every other result through unchanged. -/
def getIPsecDaemonSet (g : DSGetResult) : DSGetResult :=
  match g with
  | (ds, some e) => if isNotFoundErr e then (none, none) else (ds, some e)
  | (ds, none) => (ds, none)

/-- isIPsecDaemonSetRunning of the source: with a nil daemonset returns
(false, the lookup error); with a non-nil daemonset returns whether
DesiredNumberScheduled equals NumberReady, with a nil error. -/
def isIPsecDaemonSetRunning (g : DSGetResult) : Bool × Option Err :=
  match getIPsecDaemonSet g with
  | (none, err) => (false, err)
  | (some ds, _) => (decide (ds.desiredNumberScheduled = ds.numberReady), none)

/-- The abort test each poll body applies to an error value:
err is non-nil and not of the connection-reset class. -/
def abortErr : Option Err → Bool
  | none => false
  | some e => !(isConnResetErr e)

/-- The shared tail of the three poll bodies: once the structural probe is
ready, run areClusterOperatorsReady, abort on a non-transient error, and
otherwise report the operator readiness with a nil error. -/
def operatorGate (co : Bool × Option Err) : Bool × Option Err :=
  if abortErr co.2 then (false, co.2) else (co.1, none)

/-- The poll body of ensureIPsecMachineConfigRolloutComplete: check
areMachineConfigPoolsReadyWithIPsec (mcp), abort on a non-transient error,
and when done consult areClusterOperatorsReady (co) through operatorGate. -/
def mcpRolloutCond (mcp co : Bool × Option Err) : Bool × Option Err :=
  if abortErr mcp.2 then (false, mcp.2)
  else if mcp.1 then operatorGate co
  else (false, none)

/-- The poll body of the daemonset wait of ensureIPsecEnabled: check
isIPsecDaemonSetRunning on the raw lookup result, abort on a non-transient
error, and when running consult the operator probe through operatorGate. -/
def ipsecEnabledDSCond (g : DSGetResult) (co : Bool × Option Err) : Bool × Option Err :=
  if abortErr (isIPsecDaemonSetRunning g).2 then (false, (isIPsecDaemonSetRunning g).2)
  else if (isIPsecDaemonSetRunning g).1 then operatorGate co
  else (false, none)

/-- The poll body of ensureIPsecDisabled: look the daemonset up through
getIPsecDaemonSet, abort on a non-transient error, and consult the operator
probe exactly when the daemonset is absent with a nil error; otherwise report
not done with a nil error. -/
def ipsecDisabledCond (g : DSGetResult) (co : Bool × Option Err) : Bool × Option Err :=
  if abortErr (getIPsecDaemonSet g).2 then (false, (getIPsecDaemonSet g).2)
  else if (getIPsecDaemonSet g).1 = none ∧ (getIPsecDaemonSet g).2 = none then operatorGate co
  else (false, none)

/-- Modelled from the spec: the loop of the vendored
wait.PollUntilContextTimeout (not under src/): invoke the condition at each
tick; a non-nil condition error or a true result ends the loop with that
error; when the fuel derived from the deadline runs out, the expired context
makes the loop return its DeadlineExceeded error. -/
def pollAux (cond : Nat → Bool × Option Err) : Nat → Nat → Option Err
  | 0, _ => some .deadlineExceeded
  | fuel + 1, i =>
    match cond i with
    | (_, some e) => some e
    | (true, none) => none
    | (false, none) => pollAux cond fuel (i + 1)

/-- Modelled from the spec: wait.PollUntilContextTimeout with immediate set,
as the source invokes it: one immediate attempt plus one attempt per interval
until the timeout expires. -/
def pollUntilContextTimeout (interval timeout : Nat) (cond : Nat → Bool × Option Err) :
    Option Err :=
  pollAux cond (timeout / interval + 1) 0

/-- ensureIPsecMachineConfigRolloutComplete of the source: poll
mcpRolloutCond at the fixed interval up to the fixed duration. The oracles
give the results of areMachineConfigPoolsReadyWithIPsec and
areClusterOperatorsReady at each poll. -/
def ensureIPsecMachineConfigRolloutComplete (mcp co : Nat → Bool × Option Err) :
    Option Err :=
  pollUntilContextTimeout ipsecRolloutWaitInterval ipsecRolloutWaitDuration
    (fun i => mcpRolloutCond (mcp i) (co i))

/-- ensureIPsecEnabled of the source: first ensure the machine config rollout
is complete, propagating its error, then poll the daemonset readiness body.
The g oracle gives the raw daemonset Get result at each poll of the second
wait. -/
def ensureIPsecEnabled (mcp co : Nat → Bool × Option Err) (g : Nat → DSGetResult) :
    Option Err :=
  match ensureIPsecMachineConfigRolloutComplete mcp co with
  | some e => some e
  | none =>
    pollUntilContextTimeout ipsecRolloutWaitInterval ipsecRolloutWaitDuration
      (fun i => ipsecEnabledDSCond (g i) (co i))

/-- ensureIPsecDisabled of the source: poll ipsecDisabledCond at the fixed
interval up to the fixed duration. -/
def ensureIPsecDisabled (g : Nat → DSGetResult) (co : Nat → Bool × Option Err) :
    Option Err :=
  pollUntilContextTimeout ipsecRolloutWaitInterval ipsecRolloutWaitDuration
    (fun i => ipsecDisabledCond (g i) (co i))

/-- waitForIPsecConfigToComplete of the source: dispatch the convergence wait
on the target mode (Disabled, External or Full; any other mode waits on
nothing), returning the error the chosen wait produced (which the source
asserts to be nil). -/
def waitForIPsecConfigToComplete (ipsecMode : String)
    (mcp co : Nat → Bool × Option Err) (g : Nat → DSGetResult) : Option Err :=
  if ipsecMode = IPsecModeDisabled then ensureIPsecDisabled g co
  else if ipsecMode = IPsecModeExternal then ensureIPsecMachineConfigRolloutComplete mcp co
  else if ipsecMode = IPsecModeFull then ensureIPsecEnabled mcp co g
  else none

/-- The fmt.Errorf wrapping of the source-node tcpdump task of
pingAndCheckNodeTraffic (error capturing traffic on the source node). -/
def srcCaptureTask (res : Option Err) : Option Err :=
  match res with
  | none => none
  | some e => some (.srcCaptureWrap e)

/-- The fmt.Errorf wrapping of the destination-node tcpdump task of
pingAndCheckNodeTraffic (error capturing traffic on the dst node). -/
def dstCaptureTask (res : Option Err) : Option Err :=
  match res with
  | none => none
  | some e => some (.dstCaptureWrap e)

/-- Modelled from the spec: errgroup.Group.Wait (not under src/) blocks until
every task of the group has completed and returns the error of the first task
that failed; which capture task finishes first is the schedule parameter. -/
def errgroupWait (firstTaskIsA : Bool) (a b : Option Err) : Option Err :=
  if firstTaskIsA then (match a with | some e => some e | none => b)
  else (match b with | some e => some e | none => a)

/-- The combined failure pingAndCheckNodeTraffic builds with fmt.Errorf
(failed to detect underlay traffic on node): the error of the tcpdump group
and the error of the ping task, in distinct slots. -/
structure TrialFailure where
  tcpdumpErr : Option Err
  pingErr : Option Err
deriving DecidableEq

/-- pingAndCheckNodeTraffic of the source: the two capture tasks run in the
tcpDumpSync group (wrapping their errors with the side that failed), the ping
task runs in the pingSync group; both groups are waited (all three tasks
complete), and the call returns nil exactly when neither group reported an
error, otherwise the combined failure carrying both group results.
srcCaptureRes, dstCaptureRes and pingRes are the raw results of the three
remote executions; srcFinishesFirst is the capture-task completion order. -/
def pingAndCheckNodeTraffic (srcFinishesFirst : Bool)
    (srcCaptureRes dstCaptureRes pingRes : Option Err) : Option TrialFailure :=
  if errgroupWait srcFinishesFirst (srcCaptureTask srcCaptureRes) (dstCaptureTask dstCaptureRes) ≠ none
      ∨ pingRes ≠ none then
    some { tcpdumpErr := errgroupWait srcFinishesFirst (srcCaptureTask srcCaptureRes)
             (dstCaptureTask dstCaptureRes),
           pingErr := pingRes }
  else none

/-- The gomega expectation a verification step places on one trial. -/
inductive TrialExpectation where
  | mustSucceed
  | mustFail
deriving DecidableEq

/-- One pingAndCheckNodeTraffic trial of a verification step: the ipsecTraffic
flag it is invoked with (true selects the ESP capture filter, false the Geneve
one) and the expectation asserted on its result. -/
structure TrafficTrial where
  ipsecTraffic : Bool
  expectation : TrialExpectation
deriving DecidableEq

/-- checkForESPOnlyTraffic of the source, as the ordered list of trials it
runs: one ESP trial that must succeed, then one Geneve trial that must fail. -/
def checkForESPOnlyTrafficTrials : List TrafficTrial :=
  [{ ipsecTraffic := true, expectation := .mustSucceed },
   { ipsecTraffic := false, expectation := .mustFail }]

/-- checkForGeneveOnlyTraffic of the source, as the ordered list of trials it
runs: one Geneve trial that must succeed, then one ESP trial that must fail. -/
def checkForGeneveOnlyTrafficTrials : List TrafficTrial :=
  [{ ipsecTraffic := false, expectation := .mustSucceed },
   { ipsecTraffic := true, expectation := .mustFail }]

/-- checkTraffic of the source: Full mode runs the ESP-only check, every other
mode the Geneve-only check. -/
def checkTrafficTrials (mode : String) : List TrafficTrial :=
  if mode = IPsecModeFull then checkForESPOnlyTrafficTrials
  else checkForGeneveOnlyTrafficTrials

/-- The steps of the AfterEach teardown hook, in source order. -/
inductive TeardownStep where
  | restoreMode (m : String)
  | waitModeConverged (m : String)
  | deleteRightNodePolicy
  | deleteLeftNodePolicy
  | undeployNmstateHandler
  | deleteCertMachineConfig
  | waitWorkerPoolsConverged (machineConfigName : String) (mustBePresent : Bool)
deriving DecidableEq

/-- The state effect of one teardown step: restoreMode runs
configureIPsecMode with the captured mode (conflict-free run), the delete and
undeploy steps clear the matching resource flags, and the two wait steps poll
the cluster without mutating it. -/
def runTeardownStep : TeardownStep → ClusterState → ClusterState
  | .restoreMode m, s =>
    (configureIPsecMode m (fun _ => false) (fun _ => none) defaultRetrySteps s).1
  | .waitModeConverged _, s => s
  | .deleteRightNodePolicy, s => { s with rightNodePolicy := false }
  | .deleteLeftNodePolicy, s => { s with leftNodePolicy := false }
  | .undeployNmstateHandler, s => { s with nmstateHandlerDeployed := false }
  | .deleteCertMachineConfig, s => { s with certMachineConfig := false }
  | .waitWorkerPoolsConverged _ _, s => s

/-- The AfterEach hook of the source, as its ordered step list: restore the
mode captured by BeforeAll, wait for its convergence, delete the right and
left node IPsec policies, undeploy the nmstate handler, delete the
certificate machine config, and poll the worker machine config pools until
that machine config is rolled out as absent. -/
def afterEachSteps (capturedMode : String) : List TeardownStep :=
  [.restoreMode capturedMode,
   .waitModeConverged capturedMode,
   .deleteRightNodePolicy,
   .deleteLeftNodePolicy,
   .undeployNmstateHandler,
   .deleteCertMachineConfig,
   .waitWorkerPoolsConverged nsCertMachineConfigName false]

/-- The state reached by running the whole AfterEach teardown from an
arbitrary mid-scenario state. -/
def afterEach (capturedMode : String) (s : ClusterState) : ClusterState :=
  (afterEachSteps capturedMode).foldl (fun s1 st => runTeardownStep st s1) s

/-- A conflict oracle that never injects a conflict. -/
def noConflicts : Nat → Bool := fun _ => false

/-- A read oracle whose Get never fails. -/
def noReadErr : Nat → Option Err := fun _ => none

/-- A machine config pool probe that reports rollout complete at every poll. -/
def mcpAlwaysReady : Nat → Bool × Option Err := fun _ => (true, none)

/-- A machine config pool probe that reports rollout incomplete, with no
error, at every poll. -/
def mcpNeverReady : Nat → Bool × Option Err := fun _ => (false, none)

/-- A cluster operator probe that reports healthy at every poll. -/
def coAlwaysReady : Nat → Bool × Option Err := fun _ => (true, none)

/-- A daemonset lookup that reports the daemonset absent (already mapped from
NotFound by the API: nil object, nil error) at every poll. -/
def dsAbsent : Nat → DSGetResult := fun _ => (none, none)

/-- A daemonset lookup that finds the daemonset fully ready at every poll. -/
def dsPresentReady : Nat → DSGetResult :=
  fun _ => (some { desiredNumberScheduled := 3, numberReady := 3 }, none)

/-- A daemonset lookup that never reports the daemonset running: nil object
with nil error at every poll. -/
def dsNeverRunning : Nat → DSGetResult := fun _ => (none, none)

/-- A transport-level lookup failure message. -/
def connectionRefusedMsg : String := "connection refused"

/-- A daemonset lookup that fails at the transport level: the typed client
returns its zero-valued (non-nil) object together with the error. -/
def dsGetErrorWithObject : Nat → DSGetResult :=
  fun _ => (some { desiredNumberScheduled := 0, numberReady := 0 },
            some (.msg connectionRefusedMsg))

/-- A cluster state whose stored mode is literally Full. -/
def sFullMode : ClusterState := { ipsecConfig := some { mode := IPsecModeFull } }

/-- A cluster state whose IPsec config sub-record exists with an empty mode
string. -/
def sEmptyMode : ClusterState := { ipsecConfig := some { mode := emptyMode } }

/-- A poll loop that converges returns none only because some poll cycle
reported (true, nil): the condition held with no error at that cycle. -/
theorem pollAux_eq_none_exists (cond : Nat → Bool × Option Err) :
    ∀ (fuel i : Nat), pollAux cond fuel i = none → ∃ j, cond j = (true, none) := by
  intro fuel
  induction fuel with
  | zero => intro i h; simp [pollAux] at h
  | succ n ih =>
    intro i h
    rcases hc : cond i with ⟨b, e⟩
    simp only [pollAux, hc] at h
    cases e with
    | some e1 => simp at h
    | none =>
      cases b with
      | true => exact ⟨i, hc⟩
      | false => exact ih (i + 1) h

/-- A poll loop whose condition reports (false, nil) at every cycle exhausts
its deadline fuel and returns the DeadlineExceeded context error. -/
theorem pollAux_timeout (cond : Nat → Bool × Option Err)
    (hc : ∀ j, cond j = (false, none)) :
    ∀ (fuel i : Nat), pollAux cond fuel i = some .deadlineExceeded := by
  intro fuel
  induction fuel with
  | zero => intro i; rfl
  | succ n ih => intro i; simp only [pollAux, hc i]; exact ih (i + 1)

/-- The machine config rollout poll body reports (true, nil) only when both
the pool probe and the operator probe reported ready. -/
theorem mcpRolloutCond_conv {mcp co : Bool × Option Err}
    (h : mcpRolloutCond mcp co = (true, none)) : mcp.1 = true ∧ co.1 = true := by
  rcases mcp with ⟨md, me⟩
  rcases co with ⟨cd, ce⟩
  simp only [mcpRolloutCond, operatorGate] at h
  cases hme : abortErr me <;> simp [hme] at h
  cases md <;> simp at h
  cases hce : abortErr ce <;> simp [hce] at h
  exact ⟨rfl, h⟩

/-- The daemonset poll body of the enabled wait reports (true, nil) only when
the daemonset probe reported running and the operator probe reported ready. -/
theorem ipsecEnabledDSCond_conv {g : DSGetResult} {co : Bool × Option Err}
    (h : ipsecEnabledDSCond g co = (true, none)) :
    (isIPsecDaemonSetRunning g).1 = true ∧ co.1 = true := by
  rcases co with ⟨cd, ce⟩
  simp only [ipsecEnabledDSCond, operatorGate] at h
  cases hme : abortErr (isIPsecDaemonSetRunning g).2 <;> simp [hme] at h
  cases hd : (isIPsecDaemonSetRunning g).1 <;> simp [hd] at h
  cases hce : abortErr ce <;> simp [hce] at h
  exact ⟨rfl, h⟩

/-- The disabled poll body reports (true, nil) only when the daemonset lookup
mapped to absent-with-nil-error and the operator probe reported ready. -/
theorem ipsecDisabledCond_conv {g : DSGetResult} {co : Bool × Option Err}
    (h : ipsecDisabledCond g co = (true, none)) :
    getIPsecDaemonSet g = (none, none) ∧ co.1 = true := by
  rcases co with ⟨cd, ce⟩
  simp only [ipsecDisabledCond, operatorGate] at h
  cases hme : abortErr (getIPsecDaemonSet g).2 <;> simp [hme] at h
  by_cases habs : (getIPsecDaemonSet g).1 = none ∧ (getIPsecDaemonSet g).2 = none
  · simp only [habs, if_true] at h
    cases hce : abortErr ce <;> simp [hce] at h
    refine ⟨?_, h⟩
    rcases hg : getIPsecDaemonSet g with ⟨a, b⟩
    rw [hg] at habs
    simp at habs
    rw [habs.1, habs.2]
  · simp only [if_neg habs] at h
    simp at h

/-- Claim C1 (amended): the convergence wait after a mode change includes the
machine config structural probe for the External and Full transitions (the
wait succeeds only after a poll at which the pools report the IPsec rollout
complete and the cluster operators report healthy); the Disabled transition
does not consult the machine config pools: its wait succeeds only after a
poll at which the daemonset is absent with no error and the operators report
healthy. -/
theorem c1_amended :
    (∀ mcp co g, waitForIPsecConfigToComplete IPsecModeExternal mcp co g = none →
      ∃ i, (mcp i).1 = true ∧ (co i).1 = true) ∧
    (∀ mcp co g, waitForIPsecConfigToComplete IPsecModeFull mcp co g = none →
      (∃ i, (mcp i).1 = true ∧ (co i).1 = true) ∧
      (∃ j, (isIPsecDaemonSetRunning (g j)).1 = true ∧ (co j).1 = true)) ∧
    (∀ mcp co g, waitForIPsecConfigToComplete IPsecModeDisabled mcp co g = none →
      ∃ i, getIPsecDaemonSet (g i) = (none, none) ∧ (co i).1 = true) := by
  refine ⟨?_, ?_, ?_⟩
  · intro mcp co g h
    unfold waitForIPsecConfigToComplete at h
    rw [if_neg (by decide), if_pos rfl] at h
    unfold ensureIPsecMachineConfigRolloutComplete pollUntilContextTimeout at h
    obtain ⟨j, hj⟩ := pollAux_eq_none_exists _ _ _ h
    exact ⟨j, mcpRolloutCond_conv hj⟩
  · intro mcp co g h
    unfold waitForIPsecConfigToComplete at h
    rw [if_neg (by decide), if_neg (by decide), if_pos rfl] at h
    unfold ensureIPsecEnabled at h
    cases h1 : ensureIPsecMachineConfigRolloutComplete mcp co with
    | some e => rw [h1] at h; simp at h
    | none =>
      rw [h1] at h
      simp only at h
      constructor
      · unfold ensureIPsecMachineConfigRolloutComplete pollUntilContextTimeout at h1
        obtain ⟨j, hj⟩ := pollAux_eq_none_exists _ _ _ h1
        exact ⟨j, mcpRolloutCond_conv hj⟩
      · unfold pollUntilContextTimeout at h
        obtain ⟨j, hj⟩ := pollAux_eq_none_exists _ _ _ h
        exact ⟨j, ipsecEnabledDSCond_conv hj⟩
  · intro mcp co g h
    unfold waitForIPsecConfigToComplete at h
    rw [if_pos rfl] at h
    unfold ensureIPsecDisabled pollUntilContextTimeout at h
    obtain ⟨j, hj⟩ := pollAux_eq_none_exists _ _ _ h
    exact ⟨j, ipsecDisabledCond_conv hj⟩

/-- Claim C1 witness: the three amended implications applied at concrete
oracles whose waits converge. -/
theorem c1_witness :
    (∃ i, (mcpAlwaysReady i).1 = true ∧ (coAlwaysReady i).1 = true) ∧
    ((∃ i, (mcpAlwaysReady i).1 = true ∧ (coAlwaysReady i).1 = true) ∧
      (∃ j, (isIPsecDaemonSetRunning (dsPresentReady j)).1 = true ∧ (coAlwaysReady j).1 = true)) ∧
    (∃ i, getIPsecDaemonSet (dsAbsent i) = (none, none) ∧ (coAlwaysReady i).1 = true) := by
  refine ⟨?_, ?_, ?_⟩
  · exact c1_amended.1 mcpAlwaysReady coAlwaysReady dsAbsent (by decide)
  · exact c1_amended.2.1 mcpAlwaysReady coAlwaysReady dsPresentReady (by decide)
  · exact c1_amended.2.2 mcpNeverReady coAlwaysReady dsAbsent (by decide)

/-- Claim C1 counterexample: the Disabled-mode convergence wait succeeds under
a machine config pool probe that reports the rollout incomplete at every poll
(mcpNeverReady yields (false, nil) everywhere), so the wait for the Disabled
transition does not include the machine config structural probe, contrary to
the claim that every mode transition includes it. -/
theorem c1_counterexample :
    waitForIPsecConfigToComplete IPsecModeDisabled mcpNeverReady coAlwaysReady dsAbsent = none ∧
    mcpNeverReady 0 = (false, none) := by
  constructor <;> decide

/-- Claim C2 (amended): after convergence, verification for Full mode runs
exactly one positive encrypted (ESP) trial followed by one negative-control
plain (Geneve) trial that must fail; verification for any non-Full mode
(Disabled and External) runs one positive plain trial followed by one
negative-control encrypted trial that must fail. -/
theorem c2_amended :
    checkTrafficTrials IPsecModeFull =
      [{ ipsecTraffic := true, expectation := .mustSucceed },
       { ipsecTraffic := false, expectation := .mustFail }] ∧
    (∀ mode : String, mode ≠ IPsecModeFull →
      checkTrafficTrials mode =
        [{ ipsecTraffic := false, expectation := .mustSucceed },
         { ipsecTraffic := true, expectation := .mustFail }]) := by
  refine ⟨by decide, ?_⟩
  intro mode hm
  unfold checkTrafficTrials
  rw [if_neg hm]
  rfl

/-- Claim C2 witness: the non-Full clause applied at the Disabled and
External modes. -/
theorem c2_witness :
    checkTrafficTrials IPsecModeDisabled =
      [{ ipsecTraffic := false, expectation := .mustSucceed },
       { ipsecTraffic := true, expectation := .mustFail }] ∧
    checkTrafficTrials IPsecModeExternal =
      [{ ipsecTraffic := false, expectation := .mustSucceed },
       { ipsecTraffic := true, expectation := .mustFail }] :=
  ⟨c2_amended.2 IPsecModeDisabled (by decide), c2_amended.2 IPsecModeExternal (by decide)⟩

/-- Claim C2 counterexample: Full-mode verification does not consist of
exactly one positive trial and no other trial: checkForESPOnlyTraffic runs a
second, negative-control Geneve trial that must fail. -/
theorem c2_counterexample :
    (checkTrafficTrials IPsecModeFull).length ≠ 1 ∧
    (checkTrafficTrials IPsecModeFull)[1]? =
      some { ipsecTraffic := false, expectation := .mustFail } := by
  constructor <;> decide

/-- Claim C3 (amended): for every convergence wait, if the probe never
reports converged within the fixed 20 minute bound (polled at 1 minute
intervals) and no non-transient error occurs, the wait returns the
DeadlineExceeded error of the expired polling context: the timeout is
reported to the caller as an error, not as a false outcome with a nil
error. -/
theorem c3_amended :
    (∀ mcp co, (∀ i, mcp i = (false, none) ∨ mcp i = (false, some .connReset)) →
      ensureIPsecMachineConfigRolloutComplete mcp co = some .deadlineExceeded) ∧
    (∀ mcp co g, ensureIPsecMachineConfigRolloutComplete mcp co = none →
      (∀ j, isIPsecDaemonSetRunning (g j) = (false, none)) →
      ensureIPsecEnabled mcp co g = some .deadlineExceeded) ∧
    (∀ g co, (∀ i, (g i).1 ≠ none ∧ (g i).2 = none) →
      ensureIPsecDisabled g co = some .deadlineExceeded) := by
  refine ⟨?_, ?_, ?_⟩
  · intro mcp co h
    unfold ensureIPsecMachineConfigRolloutComplete pollUntilContextTimeout
    apply pollAux_timeout
    intro j
    rcases h j with hj | hj <;> simp [mcpRolloutCond, hj, abortErr, isConnResetErr]
  · intro mcp co g h1 h2
    unfold ensureIPsecEnabled
    rw [h1]
    simp only
    unfold pollUntilContextTimeout
    apply pollAux_timeout
    intro j
    simp [ipsecEnabledDSCond, h2 j, abortErr]
  · intro g co h
    unfold ensureIPsecDisabled pollUntilContextTimeout
    apply pollAux_timeout
    intro j
    rcases hg : g j with ⟨a, b⟩
    have h1 := (h j).1
    have h2 := (h j).2
    rw [hg] at h1 h2
    simp only at h1 h2
    subst h2
    cases a with
    | none => exact absurd rfl h1
    | some ds => simp [ipsecDisabledCond, getIPsecDaemonSet, hg, abortErr]

/-- Claim C3 witness: the three amended clauses applied at concrete probes
that never converge. -/
theorem c3_witness :
    ensureIPsecMachineConfigRolloutComplete mcpNeverReady coAlwaysReady = some .deadlineExceeded ∧
    ensureIPsecEnabled mcpAlwaysReady coAlwaysReady dsNeverRunning = some .deadlineExceeded ∧
    ensureIPsecDisabled dsPresentReady coAlwaysReady = some .deadlineExceeded := by
  refine ⟨?_, ?_, ?_⟩
  · exact c3_amended.1 mcpNeverReady coAlwaysReady (fun i => Or.inl rfl)
  · exact c3_amended.2.1 mcpAlwaysReady coAlwaysReady dsNeverRunning (by decide) (fun j => rfl)
  · exact c3_amended.2.2 dsPresentReady coAlwaysReady
      (fun i => ⟨fun hh => Option.noConfusion hh, rfl⟩)

/-- Claim C3 counterexample: a machine config rollout wait whose probe
reports not-ready with no error at every poll returns the DeadlineExceeded
error, not a nil error, so the timeout is reported as an error, contrary to
the claim. -/
theorem c3_counterexample :
    ensureIPsecMachineConfigRolloutComplete mcpNeverReady coAlwaysReady = some .deadlineExceeded ∧
    ¬ ensureIPsecMachineConfigRolloutComplete mcpNeverReady coAlwaysReady = none := by
  constructor <;> decide

/-- Claim C4 (confirmed): pingAndCheckNodeTraffic returns a result computed
from all three task results (source capture, destination capture, ping); it
returns nil if and only if all three succeeded; and its failure value
distinguishes a source-side capture failure from a destination-side capture
failure and from a traffic-generation failure (the capture errors are wrapped
with their side, the ping error sits in its own slot, and a capture failure
does not suppress the ping result). Quantified over both completion orders of
the two capture tasks. -/
theorem c4_trial_barrier :
    ∀ (srcFirst : Bool) (srcRes dstRes pingRes : Option Err),
      (pingAndCheckNodeTraffic srcFirst srcRes dstRes pingRes = none ↔
        srcRes = none ∧ dstRes = none ∧ pingRes = none) ∧
      (∀ e1 e2 : Err, pingAndCheckNodeTraffic srcFirst (some e1) none none ≠
        pingAndCheckNodeTraffic srcFirst none (some e2) none) ∧
      (∀ e1 e2 : Err, pingAndCheckNodeTraffic srcFirst (some e1) none none ≠
        pingAndCheckNodeTraffic srcFirst none none (some e2)) ∧
      (∀ e1 e2 : Err, pingAndCheckNodeTraffic srcFirst none (some e1) none ≠
        pingAndCheckNodeTraffic srcFirst none none (some e2)) ∧
      (∀ e1 e2 : Err, pingAndCheckNodeTraffic srcFirst (some e1) none (some e2)
        = some { tcpdumpErr := some (.srcCaptureWrap e1), pingErr := some e2 }) := by
  intro srcFirst srcRes dstRes pingRes
  refine ⟨?_, ?_, ?_, ?_, ?_⟩
  · cases srcFirst <;> cases srcRes <;> cases dstRes <;> cases pingRes <;>
      simp [pingAndCheckNodeTraffic, errgroupWait, srcCaptureTask, dstCaptureTask]
  · intro e1 e2
    cases srcFirst <;>
      simp [pingAndCheckNodeTraffic, errgroupWait, srcCaptureTask, dstCaptureTask]
  · intro e1 e2
    cases srcFirst <;>
      simp [pingAndCheckNodeTraffic, errgroupWait, srcCaptureTask, dstCaptureTask]
  · intro e1 e2
    cases srcFirst <;>
      simp [pingAndCheckNodeTraffic, errgroupWait, srcCaptureTask, dstCaptureTask]
  · intro e1 e2
    cases srcFirst <;>
      simp [pingAndCheckNodeTraffic, errgroupWait, srcCaptureTask, dstCaptureTask]

/-- One unfolding step of the bounded conflict-retry loop. -/
theorem configureIPsecModeAux_succ (m : String) (cf : Nat → Bool) (re : Nat → Option Err)
    (n i : Nat) (s : ClusterState) :
    configureIPsecModeAux m cf re (n + 1) i s =
      match configureIPsecModeAttempt m (re i) (cf i) s with
      | (s1, none) => (s1, none)
      | (s1, some .conflict) => configureIPsecModeAux m cf re n (i + 1) s1
      | (s1, some e) => (s1, some e) := rfl

/-- With the stored sub-record literally equal to the desired mode, one
attempt reads, compares and returns nil without updating, whatever the
conflict injection would have been. -/
theorem configureIPsecModeAttempt_noop (m : String) (c : Bool) (s : ClusterState)
    (hs : s.ipsecConfig = some { mode := m }) :
    configureIPsecModeAttempt m none c s = (s, none) := by
  unfold configureIPsecModeAttempt
  rw [hs]
  simp

/-- With the stored sub-record missing or literally different from the
desired mode, a conflict-free attempt writes the desired mode and counts one
write. -/
theorem configureIPsecModeAttempt_write (m : String) (s : ClusterState)
    (hs : s.ipsecConfig ≠ some { mode := m }) :
    configureIPsecModeAttempt m none false s =
      ({ s with ipsecConfig := some { mode := m }, writeCount := s.writeCount + 1 }, none) := by
  unfold configureIPsecModeAttempt updateNetwork
  cases hcfg : s.ipsecConfig with
  | none => simp
  | some cfg =>
    have hm : cfg.mode ≠ m := by
      intro hh
      apply hs
      rw [hcfg]
      cases cfg
      simp_all
    simp [hm]

/-- With the stored sub-record missing or literally different from the
desired mode, an attempt whose update conflicts leaves the state unchanged
and reports the conflict. -/
theorem configureIPsecModeAttempt_conflict (m : String) (s : ClusterState)
    (hs : s.ipsecConfig ≠ some { mode := m }) :
    configureIPsecModeAttempt m none true s = (s, some .conflict) := by
  unfold configureIPsecModeAttempt updateNetwork
  cases hcfg : s.ipsecConfig with
  | none => simp
  | some cfg =>
    have hm : cfg.mode ≠ m := by
      intro hh
      apply hs
      rw [hcfg]
      cases cfg
      simp_all
    simp [hm]

/-- A conflict-free, read-error-free configureIPsecMode run is a no-op when
the stored literal mode already equals the desired one and otherwise performs
exactly one write. -/
theorem configureIPsecMode_noConflict (m : String) (steps : Nat) (s : ClusterState) :
    configureIPsecMode m noConflicts noReadErr (steps + 1) s =
      if s.ipsecConfig = some { mode := m } then (s, none)
      else ({ s with ipsecConfig := some { mode := m }, writeCount := s.writeCount + 1 }, none) := by
  unfold configureIPsecMode
  rw [configureIPsecModeAux_succ]
  simp only [noReadErr, noConflicts]
  by_cases hs : s.ipsecConfig = some { mode := m }
  · rw [if_pos hs, configureIPsecModeAttempt_noop m false s hs]
  · rw [if_neg hs, configureIPsecModeAttempt_write m s hs]

/-- Under the conflict oracle that injects a conflict at exactly the first k
attempts, a run that needs a write succeeds with one write as soon as an
attempt index reaches k within the budget, and exhausts the budget with the
conflict error otherwise. -/
theorem configureIPsecModeAux_conflictWindow (m : String) (k : Nat) :
    ∀ (steps i : Nat) (s : ClusterState), s.ipsecConfig ≠ some { mode := m } →
      (i + steps ≤ k →
        configureIPsecModeAux m (fun j => decide (j < k)) noReadErr steps i s
          = (s, some .conflict)) ∧
      (i ≤ k → k < i + steps →
        configureIPsecModeAux m (fun j => decide (j < k)) noReadErr steps i s
          = ({ s with ipsecConfig := some { mode := m }, writeCount := s.writeCount + 1 }, none)) := by
  intro steps
  induction steps with
  | zero =>
    intro i s hs
    refine ⟨fun _ => rfl, fun h1 h2 => ?_⟩
    omega
  | succ n ih =>
    intro i s hs
    rw [configureIPsecModeAux_succ]
    simp only [noReadErr]
    by_cases hik : i < k
    · rw [show decide (i < k) = true by simp [hik]]
      rw [configureIPsecModeAttempt_conflict m s hs]
      refine ⟨fun h1 => ?_, fun h1 h2 => ?_⟩
      · exact (ih (i + 1) s hs).1 (by omega)
      · exact (ih (i + 1) s hs).2 (by omega) (by omega)
    · rw [show decide (i < k) = false by simp [hik]]
      rw [configureIPsecModeAttempt_write m s hs]
      refine ⟨fun h1 => ?_, fun _ _ => rfl⟩
      omega

/-- Claim C5 (amended): setMode is a no-op when the stored literal mode
already equals the desired mode (returning nil with no write, whatever
conflicts would occur); calling setMode with the same mode twice in a row
performs at most one underlying write, and exactly one precisely when the
stored literal mode initially differs from it; and when the write fails with
an optimistic-concurrency conflict the whole read-compare-write sequence is
re-run, succeeding with one write once a conflict-free attempt falls within
the bounded retry budget and surfacing the conflict error when the budget is
exhausted. -/
theorem c5_amended :
    (∀ (m : String) (conflicts : Nat → Bool) (steps : Nat) (s : ClusterState),
      s.ipsecConfig = some { mode := m } →
      configureIPsecMode m conflicts noReadErr (steps + 1) s = (s, none)) ∧
    (∀ (m : String) (steps : Nat) (s : ClusterState),
      (configureIPsecMode m noConflicts noReadErr (steps + 1)
          (configureIPsecMode m noConflicts noReadErr (steps + 1) s).1).1.writeCount
        = s.writeCount + (if s.ipsecConfig = some { mode := m } then 0 else 1)) ∧
    (∀ (m : String) (k steps : Nat) (s : ClusterState),
      s.ipsecConfig ≠ some { mode := m } →
      (k < steps →
        configureIPsecMode m (fun j => decide (j < k)) noReadErr steps s
          = ({ s with ipsecConfig := some { mode := m }, writeCount := s.writeCount + 1 }, none)) ∧
      (steps ≤ k →
        configureIPsecMode m (fun j => decide (j < k)) noReadErr steps s
          = (s, some .conflict))) := by
  refine ⟨?_, ?_, ?_⟩
  · intro m conflicts steps s hs
    unfold configureIPsecMode
    rw [configureIPsecModeAux_succ]
    simp only [noReadErr]
    rw [configureIPsecModeAttempt_noop m (conflicts 0) s hs]
  · intro m steps s
    by_cases hs : s.ipsecConfig = some { mode := m }
    · simp [configureIPsecMode_noConflict, hs]
    · simp [configureIPsecMode_noConflict, hs]
  · intro m k steps s hs
    constructor
    · intro hk
      exact (configureIPsecModeAux_conflictWindow m k steps 0 s hs).2 (by omega) (by omega)
    · intro hk
      exact (configureIPsecModeAux_conflictWindow m k steps 0 s hs).1 (by omega)

/-- Claim C5 witness: the no-op clause at a store already in Full mode, and
the conflict-retry clauses at a store needing a write, with conflicts at the
first 2 attempts (within the budget of 5) and at the first 7 attempts
(exhausting it). -/
theorem c5_witness :
    configureIPsecMode IPsecModeFull noConflicts noReadErr 5 sFullMode = (sFullMode, none) ∧
    (configureIPsecMode IPsecModeFull (fun j => decide (j < 2)) noReadErr 5 sEmptyMode
      = ({ sEmptyMode with ipsecConfig := some { mode := IPsecModeFull }, writeCount := sEmptyMode.writeCount + 1 }, none)) ∧
    (configureIPsecMode IPsecModeFull (fun j => decide (j < 7)) noReadErr 5 sEmptyMode
      = (sEmptyMode, some .conflict)) := by
  refine ⟨?_, ?_, ?_⟩
  · exact c5_amended.1 IPsecModeFull noConflicts 4 sFullMode rfl
  · exact (c5_amended.2.2 IPsecModeFull 2 5 sEmptyMode (by decide)).1 (by omega)
  · exact (c5_amended.2.2 IPsecModeFull 7 5 sEmptyMode (by decide)).2 (by omega)

/-- Claim C5 counterexample: with the stored mode already equal to the
desired mode, calling setMode twice in a row performs zero underlying writes,
not exactly one as the claim states. -/
theorem c5_counterexample :
    sFullMode.writeCount = 0 ∧
    (configureIPsecMode IPsecModeFull noConflicts noReadErr defaultRetrySteps
        (configureIPsecMode IPsecModeFull noConflicts noReadErr defaultRetrySteps
          sFullMode).1).1.writeCount ≠ 1 := by
  constructor <;> decide

/-- Claim C6 (amended): getMode returns any non-empty stored mode unchanged
and treats an existing sub-record with an empty mode string as the legacy
default Full; a missing sub-record, however, is treated as no config and
yields Disabled, not the legacy default Full. -/
theorem c6_amended :
    (∀ m : String, m ≠ emptyMode → getIPsecMode none (some { mode := m }) = (m, none)) ∧
    getIPsecMode none (some { mode := emptyMode }) = (IPsecModeFull, none) ∧
    getIPsecMode none none = (IPsecModeDisabled, none) := by
  refine ⟨?_, by decide, by decide⟩
  intro m hm
  unfold getIPsecMode
  simp [hm]

/-- Claim C6 witness: the non-empty clause applied at the External mode
string. -/
theorem c6_witness :
    getIPsecMode none (some { mode := IPsecModeExternal }) = (IPsecModeExternal, none) :=
  c6_amended.1 IPsecModeExternal (by decide)

/-- Claim C6 counterexample: with the IPsec config sub-record missing
entirely, getMode returns Disabled, which is not the legacy default Full the
claim predicts for that case. -/
theorem c6_counterexample :
    getIPsecMode none none = (IPsecModeDisabled, none) ∧
    IPsecModeDisabled ≠ IPsecModeFull := by
  constructor <;> decide

/-- Claim C7 (amended): in every convergence poll body, a sub-probe error of
the connection-reset class never aborts the poll and is not propagated (in
the machine config body it is ignored outright; in the disabled and enabled
bodies the cycle reports not-done with a nil error), while an error outside
that class that reaches the poll body aborts the cycle immediately and is
propagated unchanged, both from the structural probe and from the operator
probe; with the exception, however, that in the Full-mode daemonset probe a
lookup error accompanied by a non-nil daemonset object is silently discarded
by isIPsecDaemonSetRunning, which reports readiness from the returned
object. -/
theorem c7_amended :
    (∀ (d : Bool) (e : Err) (co : Bool × Option Err), isConnResetErr e = false →
      mcpRolloutCond (d, some e) co = (false, some e)) ∧
    (∀ (d : Bool) (co : Bool × Option Err),
      mcpRolloutCond (d, some .connReset) co = mcpRolloutCond (d, none) co) ∧
    (∀ (d2 : Bool) (e2 : Err), isConnResetErr e2 = false →
      mcpRolloutCond (true, none) (d2, some e2) = (false, some e2)) ∧
    (∀ d2 : Bool, mcpRolloutCond (true, none) (d2, some .connReset) = (d2, none)) ∧
    (∀ (dsOpt : Option DaemonSetStatus) (e : Err) (co : Bool × Option Err),
      isConnResetErr e = false → isNotFoundErr e = false →
      ipsecDisabledCond (dsOpt, some e) co = (false, some e)) ∧
    (∀ (dsOpt : Option DaemonSetStatus) (co : Bool × Option Err),
      ipsecDisabledCond (dsOpt, some .connReset) co = (false, none)) ∧
    (∀ (e : Err) (co : Bool × Option Err),
      isConnResetErr e = false → isNotFoundErr e = false →
      ipsecEnabledDSCond (none, some e) co = (false, some e)) ∧
    (∀ co : Bool × Option Err,
      ipsecEnabledDSCond (none, some .connReset) co = (false, none)) ∧
    (∀ (ds : DaemonSetStatus) (e : Err) (co : Bool × Option Err), isNotFoundErr e = false →
      ipsecEnabledDSCond (some ds, some e) co = ipsecEnabledDSCond (some ds, none) co) := by
  refine ⟨?_, ?_, ?_, ?_, ?_, ?_, ?_, ?_, ?_⟩
  · intro d e co h
    simp [mcpRolloutCond, abortErr, h]
  · intro d co
    simp [mcpRolloutCond, abortErr, isConnResetErr]
  · intro d2 e2 h
    simp [mcpRolloutCond, operatorGate, abortErr, h]
  · intro d2
    simp [mcpRolloutCond, operatorGate, abortErr, isConnResetErr]
  · intro dsOpt e co h1 h2
    simp [ipsecDisabledCond, getIPsecDaemonSet, abortErr, h1, h2]
  · intro dsOpt co
    simp [ipsecDisabledCond, getIPsecDaemonSet, abortErr, isConnResetErr, isNotFoundErr]
  · intro e co h1 h2
    simp [ipsecEnabledDSCond, isIPsecDaemonSetRunning, getIPsecDaemonSet, abortErr, h1, h2]
  · intro co
    simp [ipsecEnabledDSCond, isIPsecDaemonSetRunning, getIPsecDaemonSet, abortErr,
      isConnResetErr, isNotFoundErr]
  · intro ds e co h
    simp [ipsecEnabledDSCond, isIPsecDaemonSetRunning, getIPsecDaemonSet, h]

/-- Claim C7 witness: the abort-and-propagate clauses and the discard
exception applied at a concrete non-transient lookup error. -/
theorem c7_witness :
    mcpRolloutCond (true, some (.msg connectionRefusedMsg)) (true, none)
      = (false, some (.msg connectionRefusedMsg)) ∧
    mcpRolloutCond (true, none) (true, some (.msg connectionRefusedMsg))
      = (false, some (.msg connectionRefusedMsg)) ∧
    ipsecDisabledCond (none, some (.msg connectionRefusedMsg)) (true, none)
      = (false, some (.msg connectionRefusedMsg)) ∧
    ipsecEnabledDSCond (none, some (.msg connectionRefusedMsg)) (true, none)
      = (false, some (.msg connectionRefusedMsg)) ∧
    ipsecEnabledDSCond (some { desiredNumberScheduled := 0, numberReady := 0 },
        some (.msg connectionRefusedMsg)) (true, none)
      = ipsecEnabledDSCond (some { desiredNumberScheduled := 0, numberReady := 0 }, none)
        (true, none) :=
  ⟨c7_amended.1 true (.msg connectionRefusedMsg) (true, none) rfl,
   c7_amended.2.2.1 true (.msg connectionRefusedMsg) rfl,
   c7_amended.2.2.2.2.1 none (.msg connectionRefusedMsg) (true, none) rfl rfl,
   c7_amended.2.2.2.2.2.2.1 (.msg connectionRefusedMsg) (true, none) rfl rfl,
   c7_amended.2.2.2.2.2.2.2.2 { desiredNumberScheduled := 0, numberReady := 0 }
     (.msg connectionRefusedMsg) (true, none) rfl⟩

/-- Claim C7 counterexample: the Full-mode wait converges although the
daemonset lookup fails at every poll with a non-connection-reset error
accompanied by a (zero-valued) daemonset object: the error neither aborts the
poll nor propagates to the caller, so it is silently discarded, contrary to
the claim that every probe error outside the connection-reset class aborts
and propagates. -/
theorem c7_counterexample :
    ensureIPsecEnabled mcpAlwaysReady coAlwaysReady dsGetErrorWithObject = none ∧
    (dsGetErrorWithObject 0).2 = some (.msg connectionRefusedMsg) ∧
    isConnResetErr (.msg connectionRefusedMsg) = false := by
  refine ⟨by decide, rfl, rfl⟩

/-- The interpreted mode getMode reports is never the empty string. -/
theorem getIPsecMode_fst_ne_empty (c : Option IPsecConfig) :
    (getIPsecMode none c).1 ≠ emptyMode := by
  cases c with
  | none => decide
  | some cfg =>
    by_cases hm : cfg.mode = emptyMode
    · have h2 : getIPsecMode none (some cfg) = (IPsecModeFull, none) := by
        unfold getIPsecMode
        simp [hm]
      rw [h2]
      decide
    · have h2 : getIPsecMode none (some cfg) = (cfg.mode, none) := by
        unfold getIPsecMode
        simp [hm]
      rw [h2]
      exact hm

/-- Setting a non-empty mode from any state leaves the store reporting
exactly that mode. -/
theorem configureIPsecMode_restores (m : String) (s : ClusterState) (hm : m ≠ emptyMode) :
    getIPsecMode none ((configureIPsecMode m noConflicts noReadErr defaultRetrySteps s).1.ipsecConfig)
      = (m, none) := by
  have h5 : defaultRetrySteps = 4 + 1 := rfl
  rw [h5, configureIPsecMode_noConflict]
  by_cases hs : s.ipsecConfig = some { mode := m }
  · rw [if_pos hs]
    show getIPsecMode none s.ipsecConfig = (m, none)
    rw [hs]
    unfold getIPsecMode
    simp [hm]
  · rw [if_neg hs]
    show getIPsecMode none (some { mode := m }) = (m, none)
    unfold getIPsecMode
    simp [hm]

/-- Claim C8 (confirmed): from any mid-scenario cluster state (so regardless
of where the scenario body stopped), the AfterEach teardown restores the
stored mode to the value captured before the scenario began, removes the left
and right per-node IPsec policies, the nmstate policy-rendering handler and
the certificate machine config, and its step sequence polls worker-pool
convergence on that machine config removal (as the step after the removal,
last before the scenario is considered complete). -/
theorem c8_teardown_restores :
    ∀ (s0 s : ClusterState),
      getIPsecMode none ((afterEach (getIPsecMode none s0.ipsecConfig).1 s).ipsecConfig)
        = ((getIPsecMode none s0.ipsecConfig).1, none) ∧
      (afterEach (getIPsecMode none s0.ipsecConfig).1 s).leftNodePolicy = false ∧
      (afterEach (getIPsecMode none s0.ipsecConfig).1 s).rightNodePolicy = false ∧
      (afterEach (getIPsecMode none s0.ipsecConfig).1 s).nmstateHandlerDeployed = false ∧
      (afterEach (getIPsecMode none s0.ipsecConfig).1 s).certMachineConfig = false ∧
      (afterEachSteps (getIPsecMode none s0.ipsecConfig).1)[5]? = some .deleteCertMachineConfig ∧
      (afterEachSteps (getIPsecMode none s0.ipsecConfig).1)[6]?
        = some (.waitWorkerPoolsConverged nsCertMachineConfigName false) := by
  intro s0 s
  refine ⟨?_, rfl, rfl, rfl, rfl, rfl, rfl⟩
  have h1 : (afterEach (getIPsecMode none s0.ipsecConfig).1 s).ipsecConfig
      = (configureIPsecMode (getIPsecMode none s0.ipsecConfig).1 noConflicts noReadErr
          defaultRetrySteps s).1.ipsecConfig := rfl
  rw [h1]
  exact configureIPsecMode_restores _ s (getIPsecMode_fst_ne_empty s0.ipsecConfig)

/-- Claim C9 (confirmed): a NotFound daemonset lookup result is mapped to a
nil daemonset with a nil error (the success signal, not an error), and the
disabled-convergence poll body proceeds to the operator-health check exactly
when the mapped lookup is absent-with-nil-error: in that case its result is
the operator gate, and otherwise its result does not depend on the operator
probe at all. -/
theorem c9_notfound_is_success :
    (∀ dsOpt : Option DaemonSetStatus, getIPsecDaemonSet (dsOpt, some .notFound) = (none, none)) ∧
    (∀ (g : DSGetResult) (co : Bool × Option Err),
      getIPsecDaemonSet g = (none, none) → ipsecDisabledCond g co = operatorGate co) ∧
    (∀ (g : DSGetResult) (co co2 : Bool × Option Err),
      getIPsecDaemonSet g ≠ (none, none) → ipsecDisabledCond g co = ipsecDisabledCond g co2) := by
  refine ⟨?_, ?_, ?_⟩
  · intro dsOpt
    simp [getIPsecDaemonSet, isNotFoundErr]
  · intro g co h
    simp [ipsecDisabledCond, h, abortErr]
  · intro g co co2 h
    unfold ipsecDisabledCond
    by_cases h1 : abortErr (getIPsecDaemonSet g).2 = true
    · simp [h1]
    · simp only [Bool.not_eq_true] at h1
      by_cases h2 : (getIPsecDaemonSet g).1 = none ∧ (getIPsecDaemonSet g).2 = none
      · exfalso
        apply h
        rcases hg : getIPsecDaemonSet g with ⟨a, b⟩
        rw [hg] at h2
        simp at h2
        rw [h2.1, h2.2]
      · simp [h1, h2]

/-- Claim C9 witness: the consult clause at a NotFound lookup already mapped
to absent, and the no-consult clause at a lookup that still finds the
daemonset, with two different operator results. -/
theorem c9_witness :
    getIPsecDaemonSet (some { desiredNumberScheduled := 3, numberReady := 3 }, some .notFound)
      = (none, none) ∧
    ipsecDisabledCond (none, none) (true, none) = operatorGate (true, none) ∧
    ipsecDisabledCond (dsPresentReady 0) (true, none)
      = ipsecDisabledCond (dsPresentReady 0) (false, none) :=
  ⟨c9_notfound_is_success.1 _,
   c9_notfound_is_success.2.1 (none, none) (true, none) rfl,
   c9_notfound_is_success.2.2 (dsPresentReady 0) (true, none) (false, none) (by decide)⟩

/-- Claim C10 (confirmed): the no-op detection of setMode compares the
desired mode against the literal stored string, not against the legacy
default interpretation that getMode applies: on a store whose sub-record
exists with an empty mode string, getMode reports Full, yet setMode with Full
still mutates the record and performs one underlying write. -/
theorem c10_setmode_literal_compare :
    ∀ (s : ClusterState) (steps : Nat), s.ipsecConfig = some { mode := emptyMode } →
      (getIPsecMode none s.ipsecConfig = (IPsecModeFull, none)) ∧
      configureIPsecMode IPsecModeFull noConflicts noReadErr (steps + 1) s
        = ({ s with ipsecConfig := some { mode := IPsecModeFull }, writeCount := s.writeCount + 1 }, none) := by
  intro s steps hs
  constructor
  · rw [hs]
    decide
  · rw [configureIPsecMode_noConflict, if_neg (by rw [hs]; decide)]

/-- Claim C10 witness: the theorem applied at the concrete empty-mode store
with the default retry budget. -/
theorem c10_witness :
    getIPsecMode none sEmptyMode.ipsecConfig = (IPsecModeFull, none) ∧
    configureIPsecMode IPsecModeFull noConflicts noReadErr 5 sEmptyMode
      = ({ sEmptyMode with ipsecConfig := some { mode := IPsecModeFull }, writeCount := sEmptyMode.writeCount + 1 }, none) :=
  c10_setmode_literal_compare sEmptyMode 4 rfl

end OriginIPsec
